import Mathlib

/-!
# research-deck: the slide composer of `buildDeck.mjs`

A shallow embedding of `src/buildDeck.mjs` and of the payload type of
`src/schema.mjs`.

* ECMAScript numbers are IEEE-754 binary64 values (`JSNumber`), with
  round-to-nearest-even arithmetic, `Number::toString` and
  `Number.prototype.toFixed`.
* The PptxGenJS instance is the recorded sequence of its calls
  (`defineSlideMaster`, `addSlide`, `addText`, `addTable`, `addImage`).
  `buildPptxBuffer` returns the instance as it stands when `pptx.write` is
  called; the serialisation itself belongs to the library.
* Promise rejection is the `Except` monad; `axios.get` is a parameter.
* An optional key of the payload is an `Option`; `none` is an omitted key, and for the
  nullable keys also `null`.  An options key that a call leaves out (`bold`, `underline`)
  has the value `false`.
-/

namespace ResearchDeck

/-! ## ECMAScript numbers -/

/-- ECMAScript Number: an IEEE-754 binary64 value.  `fin neg m e` denotes
`(-1)^neg * m * 2^e`. -/
inductive JSNumber where
  | nan
  | inf (neg : Bool)
  | fin (neg : Bool) (m : Nat) (e : Int)
deriving DecidableEq, Repr

namespace JSNumber

/-- Number of binary digits of `n`; `fuel` bounds the recursion. -/
def bitLen : Nat → Nat → Nat
  | 0, _ => 0
  | fuel + 1, n => if n = 0 then 0 else bitLen fuel (n / 2) + 1

/-- The least exponent of a binary64 mantissa of 53 bits. -/
def minExp : Int := -1074

/-- The greatest exponent of a binary64 mantissa of 53 bits. -/
def maxExp : Int := 971

/-- The fraction `N / (D * 2^e)` written with natural numerator and denominator. -/
def scaleFrac (N D : Nat) (e : Int) : Nat × Nat :=
  if 0 ≤ e then (N, D * 2 ^ e.toNat) else (N * 2 ^ (-e).toNat, D)

/-- Quotient `N / D` rounded to the nearest integer, ties to even. -/
def rneDiv (N D : Nat) : Nat :=
  if 2 * (N % D) > D ∨ (2 * (N % D) = D ∧ (N / D) % 2 = 1) then N / D + 1 else N / D

/-- Round the rational `N / D` (with `0 < D`), of sign `neg`, to binary64: round to nearest,
ties to even; mantissa in `[2^52, 2^53)` or exponent `-1074`; overflow gives an infinity. -/
def roundBinary64 (neg : Bool) (N D : Nat) : JSNumber :=
  if N = 0 then .fin neg 0 minExp
  else
    let e0 : Int := (bitLen N N : Int) - (bitLen D D : Int) - 52
    let s0 := scaleFrac N D e0
    let e1 : Int := if s0.1 / s0.2 < 2 ^ 52 then e0 - 1 else e0
    let e : Int := if e1 < minExp then minExp else e1
    let s := scaleFrac N D e
    let m := rneDiv s.1 s.2
    let m' := if m = 2 ^ 53 then 2 ^ 52 else m
    let e' := if m = 2 ^ 53 then e + 1 else e
    if e' > maxExp then .inf neg else .fin neg m' e'

/-- A decimal literal `N / D` of the source text. -/
def lit (N D : Nat) : JSNumber := roundBinary64 false N D

/-- Unary minus. -/
protected def neg : JSNumber → JSNumber
  | .nan => .nan
  | .inf s => .inf (!s)
  | .fin s m e => .fin (!s) m e

/-- Number::add: the exact sum, rounded; an exact zero sum is `-0` only for `-0 + -0`. -/
protected def add : JSNumber → JSNumber → JSNumber
  | .nan, _ => .nan
  | _, .nan => .nan
  | .inf s, .inf t => if s = t then .inf s else .nan
  | .inf s, .fin _ _ _ => .inf s
  | .fin _ _ _, .inf t => .inf t
  | .fin s m e, .fin t n f =>
    let g : Int := if e ≤ f then e else f
    let a : Int := (if s then -1 else 1) * ((m * 2 ^ (e - g).toNat : Nat) : Int)
    let b : Int := (if t then -1 else 1) * ((n * 2 ^ (f - g).toNat : Nat) : Int)
    let c : Int := a + b
    if c = 0 then .fin (s && t) 0 minExp
    else
      let r := scaleFrac c.natAbs 1 (-g)
      roundBinary64 (decide (c < 0)) r.1 r.2

/-- Number::subtract: `a - b` is `a + (-b)`. -/
protected def sub (a b : JSNumber) : JSNumber := JSNumber.add a (JSNumber.neg b)

/-- Number::multiply: the exact product, rounded; the sign is the exclusive or. -/
protected def mul : JSNumber → JSNumber → JSNumber
  | .nan, _ => .nan
  | _, .nan => .nan
  | .inf s, .inf t => .inf (xor s t)
  | .inf s, .fin t n _ => if n = 0 then .nan else .inf (xor s t)
  | .fin s m _, .inf t => if m = 0 then .nan else .inf (xor s t)
  | .fin s m e, .fin t n f =>
    let r := scaleFrac (m * n) 1 (-(e + f))
    roundBinary64 (xor s t) r.1 r.2

/-- Number::divide: the exact quotient, rounded; `0 / 0` is NaN and any other finite number
over zero is an infinity. -/
protected def div : JSNumber → JSNumber → JSNumber
  | .nan, _ => .nan
  | _, .nan => .nan
  | .inf _, .inf _ => .nan
  | .inf s, .fin t _ _ => .inf (xor s t)
  | .fin s _ _, .inf t => .fin (xor s t) 0 minExp
  | .fin s m e, .fin t n f =>
    if n = 0 then (if m = 0 then .nan else .inf (xor s t))
    else
      let r := scaleFrac m n (f - e)
      roundBinary64 (xor s t) r.1 r.2

instance : Add JSNumber := ⟨JSNumber.add⟩
instance : Sub JSNumber := ⟨JSNumber.sub⟩
instance : Mul JSNumber := ⟨JSNumber.mul⟩
instance : Div JSNumber := ⟨JSNumber.div⟩

/-- ToBoolean on a Number: `+0`, `-0` and `NaN` are falsy. -/
def truthy : JSNumber → Bool
  | .nan => false
  | .inf _ => true
  | .fin _ m _ => m != 0

/-- Least `j ≥ j0` with `D ≤ N * 10^j`; `fuel` bounds the search. -/
def leadShift : Nat → Nat → Nat → Nat → Nat
  | 0, _, _, j => j
  | fuel + 1, N, D, j => if D ≤ N * 10 ^ j then j else leadShift fuel N D (j + 1)

/-- Decimal exponent of the positive rational `N / D`: the `n` with `10^(n-1) ≤ N/D < 10^n`. -/
def decExp (N D : Nat) : Int :=
  if D ≤ N then ((Nat.toDigits 10 (N / D)).length : Int)
  else 1 - (leadShift 400 N D 1 : Int)

/-- The fraction `N * 10^p / D` written with natural numerator and denominator. -/
def scale10 (N D : Nat) (p : Int) : Nat × Nat :=
  if 0 ≤ p then (N * 10 ^ p.toNat, D) else (N, D * 10 ^ (-p).toNat)

/-- The shortest decimal significand: the first `k` from 1 to 17 for which a `k`-digit `s`
next to `N / D * 10^(k-n)` has `s * 10^(n-k)` rounding to `x0`; of two such `s` the nearer
one, then the even one.  The result is 10 when a single digit carries. -/
def shortestDigits : Nat → Nat → Nat → Nat → Int → JSNumber → Nat
  | 0, _, N, D, n, _ => (scale10 N D (17 - n)).1 / (scale10 N D (17 - n)).2
  | fuel + 1, k, N, D, n, x0 =>
    let v := scale10 N D (k - n)
    let lo := v.1 / v.2
    let hi := lo + 1
    let okLo := decide
      (roundBinary64 false (scale10 lo 1 (n - k)).1 (scale10 lo 1 (n - k)).2 = x0)
    let okHi := decide
      (roundBinary64 false (scale10 hi 1 (n - k)).1 (scale10 hi 1 (n - k)).2 = x0)
    let dLo := v.1 - lo * v.2
    let dHi := hi * v.2 - v.1
    if okLo && (!okHi || decide (dLo < dHi) || (decide (dLo = dHi) && decide (lo % 2 = 0)))
    then lo
    else if okHi then hi
    else shortestDigits fuel (k + 1) N D n x0

/-- Number::toString(x, 10) of ECMAScript: the shortest digits that read back as `x`, in
plain notation for a decimal exponent `n` with `-6 < n ≤ 21`, else in exponent notation. -/
def numberToString : JSNumber → String
  | .nan => "NaN"
  | .inf s => if s then "-Infinity" else "Infinity"
  | .fin neg m e =>
    if m = 0 then "0"
    else
      let r := scaleFrac m 1 (-e)
      let n0 := decExp r.1 r.2
      let s0 := shortestDigits 17 1 r.1 r.2 n0 (roundBinary64 false r.1 r.2)
      let ds := if s0 = 10 then ['1'] else Nat.toDigits 10 s0
      let n : Int := if s0 = 10 then n0 + 1 else n0
      let k := ds.length
      let sign := if neg then "-" else ""
      let body :=
        if (k : Int) ≤ n ∧ n ≤ 21 then String.mk (ds ++ List.replicate (n.toNat - k) '0')
        else if 0 < n ∧ n ≤ 21 then
          String.mk (ds.take n.toNat) ++ "." ++ String.mk (ds.drop n.toNat)
        else if -6 < n ∧ n ≤ 0 then "0." ++ String.mk (List.replicate (-n).toNat '0' ++ ds)
        else
          let ex := (if 0 ≤ n - 1 then "+" else "-")
            ++ String.mk (Nat.toDigits 10 (n - 1).natAbs)
          if k = 1 then String.mk ds ++ "e" ++ ex
          else String.mk (ds.take 1) ++ "." ++ String.mk (ds.drop 1) ++ "e" ++ ex
      sign ++ body

/-- Number.prototype.toFixed(f) of ECMAScript: a non-finite number and a magnitude of
`10^21` or more are rendered by Number::toString; otherwise the integer `n` nearest to
`|x| * 10^f` (the larger of two) is written with `f` fractional digits. -/
def toFixed (x : JSNumber) (f : Nat) : String :=
  match x with
  | .nan => "NaN"
  | .inf s => if s then "-Infinity" else "Infinity"
  | .fin neg m e =>
    let r := scaleFrac m 1 (-e)
    let sign := if neg && m != 0 then "-" else ""
    if 10 ^ 21 * r.2 ≤ r.1 then sign ++ numberToString (.fin false m e)
    else
      let n := (2 * r.1 * 10 ^ f + r.2) / (2 * r.2)
      let ds := Nat.toDigits 10 n
      if f = 0 then sign ++ String.mk ds
      else
        let ds := List.replicate (f + 1 - ds.length) '0' ++ ds
        sign ++ String.mk (ds.take (ds.length - f)) ++ "."
          ++ String.mk (ds.drop (ds.length - f))

end JSNumber

/-! ## The payload (`schema.mjs`) -/

/-- The enumeration `z.enum(["Bullish","Neutral","Bearish"])`. -/
inductive Tone where
  | Bullish
  | Neutral
  | Bearish
deriving DecidableEq, Repr

/-- String conversion of a tone inside a template literal. -/
def Tone.toString : Tone → String
  | .Bullish => "Bullish"
  | .Neutral => "Neutral"
  | .Bearish => "Bearish"

structure Snapshot where
  industry : String
  businessModel : String
  marketCap : Option String
  growthFocus : String
deriving DecidableEq, Repr

structure Rating where
  source : String
  rating : String
  target : JSNumber
deriving DecidableEq, Repr

/-- One entry of `competitors`; `none` stands for an absent, `undefined` or `null` field. -/
structure Competitor where
  peer : String
  mktCap : Option JSNumber
  pe : Option JSNumber
  note : Option String
deriving DecidableEq, Repr

inductive ChartType where
  | bar
  | line
  | candlestick
deriving DecidableEq, Repr

structure Chart where
  title : String
  type : ChartType
  dataLabels : List String
  dataValues : List JSNumber
deriving DecidableEq, Repr

/-- The output type of `Payload.parse`; `none` is an omitted optional key. -/
structure Payload where
  ticker : String
  companyName : String
  asOfDate : String
  priceToday : Option JSNumber
  snapshot : Snapshot
  ratings : List Rating
  positives : List String
  negatives : List String
  competitors : Option (List Competitor)
  risks : Option (List String)
  tone : Tone
  whyTone : String
  discrepancies : Option (List String)
  watch : Option (List String)
  charts : Option (List Chart)
  logoUrl : Option String
  sources : Option (List String)
deriving DecidableEq, Repr

/-- A number that `z.number()` accepts: a finite double in canonical form. -/
def JSNumber.accepted : JSNumber → Bool
  | .nan => false
  | .inf _ => false
  | .fin s m e =>
    decide (JSNumber.roundBinary64 s (JSNumber.scaleFrac m 1 (-e)).1
      (JSNumber.scaleFrac m 1 (-e)).2 = .fin s m e)

/-- Every number of the payload is one that the schema accepts. -/
def Payload.accepted (d : Payload) : Bool :=
  (match d.priceToday with
    | some p => p.accepted
    | none => true)
  && d.ratings.all (fun r => r.target.accepted)
  && (match d.competitors with
    | some cs => cs.all (fun c =>
        (match c.mktCap with
          | some m => m.accepted
          | none => true)
        && (match c.pe with
          | some m => m.accepted
          | none => true))
    | none => true)
  && (match d.charts with
    | some cs => cs.all (fun c => c.dataValues.all JSNumber.accepted)
    | none => true)

/-! ## The recorded PptxGenJS instance -/

/-- The font and colour keys of a text options object. -/
structure TextStyle where
  fontFace : String
  fontSize : Nat
  bold : Bool := false
  color : String
deriving DecidableEq, Repr

/-- The options object passed to `addText`. -/
structure TextProps extends TextStyle where
  x : JSNumber
  y : JSNumber
  w : JSNumber
  h : JSNumber
  align : Option String := none
  lineSpacing : Option Nat := none
  underline : Bool := false
deriving DecidableEq, Repr

structure Border where
  type : String
  color : String
  pt : Nat
deriving DecidableEq, Repr

/-- The options object passed to `addTable`. -/
structure TableProps where
  x : JSNumber
  y : JSNumber
  w : JSNumber
  fontSize : Nat
  colW : List JSNumber
  tableHeaderRow : Bool
  fillHdr : String
  colorHdr : String
  border : Border
  rowH : JSNumber
deriving DecidableEq, Repr

/-- The options object passed to `addImage`. -/
structure ImageProps where
  data : String
  x : JSNumber
  y : JSNumber
  w : JSNumber
  h : JSNumber
deriving DecidableEq, Repr

/-- A table cell: the source puts strings and, for `pe`, numbers into rows. -/
inductive Cell where
  | str (s : String)
  | num (n : JSNumber)
deriving DecidableEq, Repr

/-- One call on a slide, in call order. -/
inductive SlideObject where
  | text (text : String) (opts : TextProps)
  | table (rows : List (List Cell)) (opts : TableProps)
  | image (opts : ImageProps)
deriving DecidableEq, Repr

structure Slide where
  masterName : String
  objects : List SlideObject
deriving DecidableEq, Repr

/-- The `rect` object of a slide master; its width is the string `"100%"`. -/
structure MasterRect where
  x : JSNumber
  y : JSNumber
  w : String
  h : JSNumber
  fill : String
deriving DecidableEq, Repr

structure SlideNumber where
  x : JSNumber
  y : JSNumber
  color : String
  fontSize : Nat
deriving DecidableEq, Repr

structure SlideMaster where
  title : String
  bkgd : String
  objects : List MasterRect
  slideNumber : SlideNumber
deriving DecidableEq, Repr

/-- The PptxGenJS instance: layout, masters and slides in the order of the calls. -/
structure Pptx where
  layout : String
  masters : List SlideMaster
  slides : List Slide
deriving DecidableEq, Repr

/-- Call `pptx.defineSlideMaster(m)`. -/
def Pptx.defineSlideMaster (p : Pptx) (m : SlideMaster) : Pptx :=
  { p with masters := p.masters ++ [m] }

/-- A slide as `pptx.addSlide` creates it. -/
def newSlide (masterName : String) : Slide :=
  { masterName := masterName, objects := [] }

/-- Record a finished slide; slides are kept in the order of their `addSlide` calls. -/
def Pptx.addSlide (p : Pptx) (s : Slide) : Pptx :=
  { p with slides := p.slides ++ [s] }

def Slide.addText (s : Slide) (text : String) (opts : TextProps) : Slide :=
  { s with objects := s.objects ++ [.text text opts] }

def Slide.addTable (s : Slide) (rows : List (List Cell)) (opts : TableProps) : Slide :=
  { s with objects := s.objects ++ [.table rows opts] }

def Slide.addImage (s : Slide) (opts : ImageProps) : Slide :=
  { s with objects := s.objects ++ [.image opts] }

/-! ## `buildDeck.mjs`: helpers -/

abbrev Byte := Fin 256

def base64Alphabet : List Char :=
  "ABCDEFGHIJKLMNOPQRSTUVWXYZabcdefghijklmnopqrstuvwxyz0123456789+/".toList

def base64Char (i : Nat) : Char := base64Alphabet.getD (i % 64) 'A'

/-- Base64 with padding, as `Buffer.prototype.toString("base64")` produces it. -/
def base64 : List Byte → List Char
  | [] => []
  | [a] =>
    [base64Char (a.val / 4), base64Char (a.val % 4 * 16), '=', '=']
  | [a, b] =>
    [base64Char (a.val / 4), base64Char (a.val % 4 * 16 + b.val / 16),
     base64Char (b.val % 16 * 4), '=']
  | a :: b :: c :: rest =>
    base64Char (a.val / 4) :: base64Char (a.val % 4 * 16 + b.val / 16) ::
    base64Char (b.val % 16 * 4 + c.val / 64) :: base64Char (c.val % 64) :: base64 rest

def bufToDataUriPng (buf : List Byte) : String :=
  "data:image/png;base64," ++ String.mk (base64 buf)

/-- The helper `fetchImageAsDataUri`; `axiosGet url` is `axios.get(url, ...)` resolved to
`r.data`, an error being a rejected promise. -/
def fetchImageAsDataUri (axiosGet : String → Except String (List Byte)) (url : String) :
    Except String String := do
  let r ← axiosGet url
  pure (bufToDataUriPng r)

/-! ## `buildDeck.mjs`: theme -/

def BRAND_LIGHT : String := "1F6FEB"
def BRAND_DARK : String := "0A3A8B"
def TEXT : String := "111111"
def SUBT : String := "666666"

def TITLE : TextStyle := { fontFace := "Calibri", fontSize := 35, bold := true, color := TEXT }
def H2 : TextStyle := { fontFace := "Calibri", fontSize := 20, bold := true, color := TEXT }
def BODY : TextStyle := { fontFace := "Calibri", fontSize := 16, color := TEXT }
def SMALL : TextStyle := { fontFace := "Calibri", fontSize := 14, color := SUBT }

def SLIDE_W : JSNumber := .lit 1333 100
def SLIDE_H : JSNumber := .lit 75 10
def MARGIN : JSNumber := .lit 6 10

def HEADER_H : JSNumber := .lit 11 10
def HEADER_TITLE : TextStyle :=
  { fontFace := "Calibri", fontSize := 30, bold := true, color := "FFFFFF" }

def HEADER_TITLE_Y : JSNumber := (HEADER_H - .lit 6 10) / .lit 2 1
def CONTENT_TOP : JSNumber := .lit 8 10 + HEADER_H

/-- The helper `addContentTitle`. -/
def addContentTitle (slide : Slide) (text : String) : Slide :=
  slide.addText text
    { toTextStyle := HEADER_TITLE,
      x := MARGIN, y := HEADER_TITLE_Y, w := SLIDE_W - .lit 2 1 * MARGIN, h := .lit 6 10 }

/-! ## `buildDeck.mjs`: deck -/

/-- ToBoolean of an optional string: absent and `""` are falsy. -/
def truthyString : Option String → Bool
  | some s => s != ""
  | none => false

/-- ToBoolean of `xs?.length`: absent and empty sequences are falsy. -/
def truthyLength {α : Type} : Option (List α) → Bool
  | some xs => xs.length != 0
  | none => false

/-- The array method `.filter(Boolean)` on an array of strings and `null`s. -/
def filterBoolean (xs : List (Option String)) : List String :=
  xs.filterMap (fun x => if truthyString x then x else none)

/-- The array method `.join(sep)` on strings. -/
def join (xs : List String) (sep : String) : String := sep.intercalate xs

def titleMaster : SlideMaster :=
  { title := "TITLE_MASTER", bkgd := "FFFFFF", objects := [],
    slideNumber :=
      { x := SLIDE_W - .lit 11 10, y := SLIDE_H - .lit 6 10, color := SUBT, fontSize := 12 } }

def contentMaster : SlideMaster :=
  { title := "CONTENT_MASTER", bkgd := "FFFFFF",
    objects := [{ x := .lit 0 1, y := .lit 0 1, w := "100%", h := HEADER_H, fill := BRAND_DARK }],
    slideNumber :=
      { x := SLIDE_W - .lit 11 10, y := SLIDE_H - .lit 6 10, color := SUBT, fontSize := 12 } }

/-- Slide 1: Cover, title and subtitle. -/
def coverTexts (data : Payload) : Slide :=
  let s := newSlide "TITLE_MASTER"
  let s := s.addText (data.companyName ++ " (" ++ data.ticker ++ ")")
    { fontFace := "Calibri", fontSize := 60, bold := true, color := TEXT,
      x := MARGIN, y := (SLIDE_H / .lit 2 1) - .lit 12 10, w := SLIDE_W - .lit 2 1 * MARGIN,
      h := .lit 18 10, align := some "center" }
  s.addText ("As of " ++ data.asOfDate)
    { fontFace := "Calibri", fontSize := 22, color := SUBT,
      x := MARGIN, y := (SLIDE_H / .lit 2 1) + .lit 8 10, w := SLIDE_W - .lit 2 1 * MARGIN,
      h := .lit 6 10, align := some "center" }

/-- The options of the logo image. -/
def logoProps (dataUri : String) : ImageProps :=
  { data := dataUri, x := SLIDE_W - .lit 23 10, y := .lit 6 10, w := .lit 15 10, h := .lit 15 10 }

/-- Slide 1: Cover.  A rejected fetch is caught and leaves the slide without an image. -/
def coverSlide (axiosGet : String → Except String (List Byte)) (data : Payload) :
    Except String Slide := do
  let s := coverTexts data
  if truthyString data.logoUrl then
    try
      let dataUri ← fetchImageAsDataUri axiosGet (data.logoUrl.getD "")
      pure (s.addImage (logoProps dataUri))
    catch _ => pure s
  else
    pure s

/-- Slide 2: Company Snapshot. -/
def snapshotSlide (data : Payload) : Slide :=
  let s := newSlide "CONTENT_MASTER"
  let s := addContentTitle s "Company Snapshot"
  let bullets := join (filterBoolean
    [ some ("• Industry: " ++ data.snapshot.industry),
      some ("• Business model: " ++ data.snapshot.businessModel),
      if truthyString data.snapshot.marketCap
        then some ("• Market cap: " ++ data.snapshot.marketCap.getD "") else none,
      some ("• Growth focus: " ++ data.snapshot.growthFocus) ]) "\n"
  s.addText bullets
    { toTextStyle := BODY, x := MARGIN, y := CONTENT_TOP, w := SLIDE_W - .lit 2 1 * MARGIN,
      h := .lit 42 10, lineSpacing := some 20 }

/-- The constant `up` of the ratings loop. -/
def upDown (priceToday : Option JSNumber) (r : Rating) : String :=
  match priceToday with
  | some p => JSNumber.toFixed (((r.target - p) / p) * .lit 100 1) 1 ++ "%"
  | none => "—"

/-- The array `rows` after the `forEach` over `data.ratings`. -/
def ratingRows (data : Payload) : List (List Cell) :=
  data.ratings.foldl
    (fun rows r => rows ++
      [[.str r.source, .str r.rating, .str ("$" ++ JSNumber.numberToString r.target),
        .str (upDown data.priceToday r)]])
    [[.str "Source", .str "Rating", .str "Target", .str "Upside/Downside"]]

def tableW : JSNumber := SLIDE_W - .lit 2 1 * MARGIN

/-- The options of the ratings table. -/
def ratingsTableProps : TableProps :=
  { x := MARGIN, y := CONTENT_TOP, w := tableW, fontSize := 14,
    colW := [tableW * .lit 47 100, tableW * .lit 18 100, tableW * .lit 15 100,
      tableW * .lit 20 100],
    tableHeaderRow := true, fillHdr := "F3F4F6", colorHdr := TEXT,
    border := { type := "solid", color := "D1D5DB", pt := 1 },
    rowH := .lit 45 100 }

/-- Slide 3: Analyst Ratings & Targets. -/
def ratingsSlide (data : Payload) : Slide :=
  let s := newSlide "CONTENT_MASTER"
  let s := addContentTitle s "Analyst Ratings & Targets"
  s.addTable (ratingRows data) ratingsTableProps

/-- Slide 4: Key Takeaways. -/
def takeawaysSlide (data : Payload) : Slide :=
  let s := newSlide "CONTENT_MASTER"
  let s := addContentTitle s "Key Takeaways"
  let s := s.addText "Positives"
    { fontFace := "Calibri", fontSize := 18, bold := true, color := "157347",
      x := MARGIN, y := CONTENT_TOP, w := .lit 56 10, h := .lit 5 10 }
  let s := s.addText (join (data.positives.map (fun p => "• " ++ p)) "\n")
    { toTextStyle := BODY, x := MARGIN, y := CONTENT_TOP + .lit 5 10, w := .lit 56 10,
      h := .lit 4 1, lineSpacing := some 20 }
  let s := s.addText "Negatives"
    { fontFace := "Calibri", fontSize := 18, bold := true, color := "B02A37",
      x := MARGIN + .lit 58 10, y := CONTENT_TOP, w := .lit 56 10, h := .lit 5 10 }
  s.addText (join (data.negatives.map (fun p => "• " ++ p)) "\n")
    { toTextStyle := BODY, x := MARGIN + .lit 58 10, y := CONTENT_TOP + .lit 5 10,
      w := .lit 56 10, h := .lit 4 1, lineSpacing := some 20 }

/-- One row of `body` in the peer table. -/
def peerRow (c : Competitor) : List Cell :=
  [ .str c.peer,
    (match c.mktCap with
      | some m => if m.truthy then .str (JSNumber.toFixed (m / .lit 1000 1) 1) else .str "—"
      | none => .str "—"),
    (match c.pe with
      | some pe => .num pe
      | none => .str "—"),
    (match c.note with
      | some note => .str note
      | none => .str "") ]

/-- The options of the peer table. -/
def peerTableProps : TableProps :=
  { x := MARGIN, y := CONTENT_TOP, w := tableW, fontSize := 14,
    colW := [tableW * .lit 40 100, tableW * .lit 23 100, tableW * .lit 15 100,
      tableW * .lit 22 100],
    tableHeaderRow := true, fillHdr := "F3F4F6", colorHdr := TEXT,
    border := { type := "solid", color := "D1D5DB", pt := 1 },
    rowH := .lit 45 100 }

/-- Slide 5: Peer Comparison, for a non-empty `competitors`. -/
def peerSlide (competitors : List Competitor) : Slide :=
  let s := newSlide "CONTENT_MASTER"
  let s := addContentTitle s "Peer Comparison"
  let header : List Cell := [.str "Peer", .str "Mkt Cap ($B)", .str "P/E", .str "Note"]
  let body := competitors.map peerRow
  s.addTable (header :: body) peerTableProps

/-- Slide 6: Risks & What to Watch. -/
def risksSlide (data : Payload) : Slide :=
  let s := newSlide "CONTENT_MASTER"
  let s := addContentTitle s "Risks & What to Watch"
  let risks := join
    ((if truthyLength data.risks then data.risks.getD [] else ["(none provided)"]).map
      (fun r => "• " ++ r)) "\n"
  let watch := join
    ((if truthyLength data.watch then data.watch.getD [] else ["(none provided)"]).map
      (fun w => "• " ++ w)) "\n"
  let s := s.addText "Risks"
    { toTextStyle := H2, x := MARGIN, y := CONTENT_TOP, w := .lit 56 10, h := .lit 5 10 }
  let s := s.addText risks
    { toTextStyle := BODY, x := MARGIN, y := CONTENT_TOP + .lit 5 10, w := .lit 56 10,
      h := .lit 4 1, lineSpacing := some 20 }
  let s := s.addText "What to Watch"
    { toTextStyle := H2, x := MARGIN + .lit 58 10, y := CONTENT_TOP, w := .lit 56 10,
      h := .lit 5 10 }
  s.addText watch
    { toTextStyle := BODY, x := MARGIN + .lit 58 10, y := CONTENT_TOP + .lit 5 10,
      w := .lit 56 10, h := .lit 4 1, lineSpacing := some 20 }

/-- Slide 7: Strategic Commentary. -/
def commentarySlide (data : Payload) : Slide :=
  let s := newSlide "CONTENT_MASTER"
  let s := addContentTitle s "Strategic Commentary"
  let s := s.addText "Overall Tone:"
    { toTextStyle := H2, x := MARGIN, y := CONTENT_TOP, w := .lit 32 10, h := .lit 5 10 }
  let s := s.addText (" " ++ data.tone.toString)
    { toTextStyle := { H2 with color := BRAND_LIGHT },
      x := MARGIN + .lit 25 10, y := CONTENT_TOP, w := .lit 88 10, h := .lit 5 10,
      underline := true }
  s.addText data.whyTone
    { toTextStyle := BODY, x := MARGIN, y := CONTENT_TOP + .lit 7 10,
      w := SLIDE_W - .lit 2 1 * MARGIN, h := .lit 4 1, lineSpacing := some 20 }

/-- Slide 8: Sources, for a non-empty `sources`. -/
def sourcesSlide (sources : List String) : Slide :=
  let s := newSlide "CONTENT_MASTER"
  let s := addContentTitle s "Sources"
  s.addText (join (sources.map (fun x => "• " ++ x)) "\n")
    { toTextStyle := { SMALL with color := TEXT },
      x := MARGIN, y := CONTENT_TOP, w := SLIDE_W - .lit 2 1 * MARGIN, h := .lit 46 10,
      lineSpacing := some 18 }

/-- The function `buildPptxBuffer`, up to the call of `pptx.write`: the value is the
PptxGenJS instance that is serialised, an error is a rejection of the returned promise. -/
def buildPptxBuffer (axiosGet : String → Except String (List Byte)) (data : Payload) :
    Except String Pptx := do
  let pptx : Pptx := { layout := "LAYOUT_16x9", masters := [], slides := [] }
  let pptx := pptx.defineSlideMaster titleMaster
  let pptx := pptx.defineSlideMaster contentMaster
  let s ← coverSlide axiosGet data
  let pptx := pptx.addSlide s
  let pptx := pptx.addSlide (snapshotSlide data)
  let pptx := pptx.addSlide (ratingsSlide data)
  let pptx := pptx.addSlide (takeawaysSlide data)
  let pptx := if truthyLength data.competitors
    then pptx.addSlide (peerSlide (data.competitors.getD [])) else pptx
  let pptx := pptx.addSlide (risksSlide data)
  let pptx := pptx.addSlide (commentarySlide data)
  let pptx := if truthyLength data.sources
    then pptx.addSlide (sourcesSlide (data.sources.getD [])) else pptx
  pure pptx

/-! ## Auxiliary definitions for the statements -/

/-- The slides after the cover, in the order of the source. -/
def contentSlides (data : Payload) : List Slide :=
  [snapshotSlide data, ratingsSlide data, takeawaysSlide data]
    ++ (if truthyLength data.competitors then [peerSlide (data.competitors.getD [])] else [])
    ++ [risksSlide data, commentarySlide data]
    ++ (if truthyLength data.sources then [sourcesSlide (data.sources.getD [])] else [])

/-- The cover slide as a value: with the image exactly when a logo URL is given and fetched. -/
def coverResult (axiosGet : String → Except String (List Byte)) (data : Payload) : Slide :=
  if truthyString data.logoUrl then
    match axiosGet (data.logoUrl.getD "") with
    | .ok r => (coverTexts data).addImage (logoProps (bufToDataUriPng r))
    | .error _ => coverTexts data
  else coverTexts data

/-- The content title block that `addContentTitle` puts first on a content slide. -/
def contentTitle (text : String) : SlideObject :=
  .text text
    { toTextStyle := HEADER_TITLE,
      x := MARGIN, y := HEADER_TITLE_Y, w := SLIDE_W - .lit 2 1 * MARGIN, h := .lit 6 10 }

/-- A slide is the content slide titled `t` when its first block is that title. -/
def Slide.hasTitle (s : Slide) (t : String) : Prop :=
  s.objects.head? = some (contentTitle t)

instance (s : Slide) (t : String) : Decidable (s.hasTitle t) :=
  inferInstanceAs (Decidable (s.objects.head? = some (contentTitle t)))

/-- The slide whose first block is the content title `t`, if the deck has one. -/
def Pptx.slideTitled (p : Pptx) (t : String) : Option Slide :=
  p.slides.find? (fun s => decide (s.hasTitle t))

/-- The deck that `buildPptxBuffer` composes, as a value. -/
def composed (axiosGet : String → Except String (List Byte)) (data : Payload) : Pptx :=
  { layout := "LAYOUT_16x9", masters := [titleMaster, contentMaster],
    slides := coverResult axiosGet data :: contentSlides data }

/-- The rows of the first table of a slide. -/
def Slide.tableRows (s : Slide) : List (List Cell) :=
  match s.objects.filterMap (fun o => match o with
    | .table rows _ => some rows
    | _ => none) with
  | rows :: _ => rows
  | [] => []

/-- The decimal numeral with one fractional digit that counts `n` tenths. -/
def JSNumber.tenths (n : Nat) : String :=
  String.mk (Nat.toDigits 10 (n / 10)) ++ "." ++ String.mk (Nat.toDigits 10 (n % 10))

/-- The numeral with one decimal place of `n` tenths, behind a minus sign when `neg`. -/
def JSNumber.oneDecimal (neg : Bool) (n : Nat) : String :=
  (if neg = true then "-" else "") ++ JSNumber.tenths n

/-- The exact rational value of a finite double; zero for NaN and the infinities. -/
def JSNumber.exact : JSNumber → ℚ
  | .fin neg m e => (if neg = true then -1 else 1) * (m : ℚ) * 2 ^ e
  | _ => 0

/-- One for a present, non-empty sequence, zero for an absent or empty one. -/
def countIfNonEmpty {α : Type} : Option (List α) → Nat
  | some (_ :: _) => 1
  | _ => 0

/-- The header row of the ratings table. -/
def ratingsHeader : List Cell :=
  [.str "Source", .str "Rating", .str "Target", .str "Upside/Downside"]

/-- The cell in row `i`, column `j` of a cell matrix. -/
def cellAt (rows : List (List Cell)) (i j : Nat) : Option Cell :=
  (rows[i]?).bind (fun row => row[j]?)

/-- The bulleted list of a sequence: one line per entry, each behind a bullet. -/
def bulleted (xs : List String) : String :=
  "\n".intercalate (xs.map (fun x => "• " ++ x))

/-- A column of the risks slide as the specification words it. -/
def bulletColumn : Option (List String) → String
  | some (x :: xs) => bulleted (x :: xs)
  | _ => "• (none provided)"

/-- The colours declared by the theme. -/
def themeColors : List String := [BRAND_LIGHT, BRAND_DARK, TEXT, SUBT, HEADER_TITLE.color]

/-- The text roles declared by the theme. -/
def themeRoles : List TextStyle := [TITLE, H2, BODY, SMALL, HEADER_TITLE]

/-- A block styled from the declared theme only: its colours are theme colours and its
font face and size are those of a theme role. -/
def usesThemeOnly : SlideObject → Bool
  | .text _ o =>
    themeColors.contains o.color
      && themeRoles.any (fun r => r.fontFace == o.fontFace && r.fontSize == o.fontSize)
  | .table _ o =>
    themeColors.contains o.colorHdr && themeColors.contains o.fillHdr
      && themeColors.contains o.border.color
      && themeRoles.any (fun r => r.fontSize == o.fontSize)
  | .image _ => true

/-- The styling the composer gives a block: a theme role with a theme colour, or one of
the literal styles of the cover, of the Key Takeaways headings and of the tables. -/
def styledAsComposed : SlideObject → Bool
  | .text _ o =>
    o.fontFace == "Calibri" &&
      ((themeColors.contains o.color
          && themeRoles.any (fun r => r.fontFace == o.fontFace && r.fontSize == o.fontSize))
        || (o.fontSize == 60 && o.color == TEXT)
        || (o.fontSize == 22 && o.color == SUBT)
        || (o.fontSize == 18 && (o.color == "157347" || o.color == "B02A37")))
  | .table _ o =>
    o.fontSize == 14 && o.colorHdr == TEXT && o.fillHdr == "F3F4F6"
      && o.border.color == "D1D5DB"
  | .image _ => true

/-- The header row of the peer table. -/
def peerHeader : List Cell := [.str "Peer", .str "Mkt Cap ($B)", .str "P/E", .str "Note"]

/-- The text of a text block. -/
def SlideObject.text? : SlideObject → Option String
  | .text t _ => some t
  | _ => none

/-- Whether a block is an image. -/
def SlideObject.isImage : SlideObject → Bool
  | .image _ => true
  | _ => false

/-- An image fetch that always fails. -/
def offline : String → Except String (List Byte) := fun _ => .error "ECONNREFUSED"

/-- An image fetch that always succeeds with four bytes. -/
def online : String → Except String (List Byte) := fun _ => .ok [137, 80, 78, 71]

/-- A payload with every optional key omitted and no ratings. -/
def bare : Payload :=
  { ticker := "ACME", companyName := "Acme Corp", asOfDate := "2024-01-31",
    priceToday := none,
    snapshot :=
      { industry := "Tools", businessModel := "Direct sales", marketCap := none,
        growthFocus := "Anvils" },
    ratings := [], positives := [], negatives := [], competitors := none, risks := none,
    tone := .Neutral, whyTone := "Balanced.", discrepancies := none, watch := none,
    charts := none, logoUrl := none, sources := none }

/-- A payload with a price of 100, targets of 120 and 80, one peer, a logo and sources. -/
def acme : Payload :=
  { bare with
    priceToday := some (.lit 100 1),
    ratings :=
      [ { source := "Alpha", rating := "Buy", target := .lit 120 1 },
        { source := "Beta", rating := "Sell", target := .lit 80 1 } ],
    positives := ["Margins"], negatives := ["Debt"],
    competitors :=
      some [{ peer := "Globex", mktCap := some (.lit 2500 1), pe := some (.lit 185 10),
              note := none }],
    risks := some ["Recall"], watch := some [],
    logoUrl := some "https://example.com/logo.png",
    sources := some ["10-K"] }

/-- A payload without a price and with two ratings. -/
def unpriced : Payload := { acme with priceToday := none }

/-- A payload whose price today is zero. -/
def zeroPrice : Payload :=
  { bare with
    priceToday := some (.lit 0 1),
    ratings :=
      [ { source := "Alpha", rating := "Hold", target := .lit 0 1 },
        { source := "Beta", rating := "Buy", target := .lit 10 1 } ] }

/-- A payload with two peers: one of market cap zero, one of market cap `1e24`. -/
def oddCaps : Payload :=
  { bare with
    competitors :=
      some [{ peer := "Globex", mktCap := some (.lit 0 1), pe := none, note := none },
            { peer := "Initech", mktCap := some (.lit (10 ^ 24) 1), pe := none,
              note := none }] }

/-- A payload with the price 4 and the targets `1e308`, `4e21` and `4.67`. -/
def extremes : Payload :=
  { bare with
    priceToday := some (.lit 4 1),
    ratings :=
      [ { source := "Alpha", rating := "Buy", target := .lit (10 ^ 308) 1 },
        { source := "Beta", rating := "Buy", target := .lit (4 * 10 ^ 21) 1 },
        { source := "Gamma", rating := "Buy", target := .lit 467 100 } ] }

/-! ## Lemmas on `toFixed` -/

namespace JSNumber

theorem toDigitsCore_eq (fuel : Nat) : ∀ (k : Nat) (ds : List Char), k < fuel →
    Nat.toDigitsCore 10 fuel k ds = Nat.toDigits 10 k ++ ds := by
  induction fuel using Nat.strong_induction_on with
  | _ fuel ih =>
    intro k ds hk
    cases fuel with
    | zero => omega
    | succ f =>
      unfold Nat.toDigits
      rw [Nat.toDigitsCore, Nat.toDigitsCore]
      by_cases h0 : k / 10 = 0
      · simp [h0]
      · have hlt : k / 10 < k := Nat.div_lt_self (by omega) (by omega)
        simp only [h0, if_false]
        rw [ih f (by omega) (k / 10) _ (by omega), ih k (by omega) (k / 10) _ hlt]
        simp

theorem toDigits_lt_ten (n : Nat) (h : n < 10) : Nat.toDigits 10 n = [Nat.digitChar n] := by
  unfold Nat.toDigits
  rw [Nat.toDigitsCore]
  simp [Nat.div_eq_of_lt h, Nat.mod_eq_of_lt h]

theorem toDigits_ge_ten (n : Nat) (h : 10 ≤ n) :
    Nat.toDigits 10 n = Nat.toDigits 10 (n / 10) ++ [Nat.digitChar (n % 10)] := by
  have h0 : n / 10 ≠ 0 := by omega
  conv_lhs => unfold Nat.toDigits
  rw [Nat.toDigitsCore]
  simp only [h0, if_false]
  exact toDigitsCore_eq n (n / 10) _ (Nat.div_lt_self (by omega) (by omega))

theorem toDigits_length_pos (n : Nat) : 0 < (Nat.toDigits 10 n).length := by
  by_cases h : n < 10
  · simp [toDigits_lt_ten n h]
  · simp [toDigits_ge_ten n (by omega)]

theorem pad_take (n : Nat) :
    (List.replicate (1 + 1 - (Nat.toDigits 10 n).length) '0' ++ Nat.toDigits 10 n).take
        ((List.replicate (1 + 1 - (Nat.toDigits 10 n).length) '0' ++ Nat.toDigits 10 n).length - 1)
      = Nat.toDigits 10 (n / 10) ∧
    (List.replicate (1 + 1 - (Nat.toDigits 10 n).length) '0' ++ Nat.toDigits 10 n).drop
        ((List.replicate (1 + 1 - (Nat.toDigits 10 n).length) '0' ++ Nat.toDigits 10 n).length - 1)
      = Nat.toDigits 10 (n % 10) := by
  by_cases h : n < 10
  · have h1 : n / 10 = 0 := Nat.div_eq_of_lt h
    have h2 : n % 10 = n := Nat.mod_eq_of_lt h
    rw [h1, h2, toDigits_lt_ten n h, toDigits_lt_ten 0 (by omega)]
    simp [List.replicate]
    rfl
  · have hp := toDigits_length_pos (n / 10)
    rw [toDigits_ge_ten n (by omega), toDigits_lt_ten (n % 10) (Nat.mod_lt _ (by omega))]
    have hr : 1 + 1 - (Nat.toDigits 10 (n / 10) ++ [Nat.digitChar (n % 10)]).length = 0 := by
      simp; omega
    rw [hr]
    simp


theorem dot_mem_oneDecimal (neg : Bool) (n : Nat) : '.' ∈ (oneDecimal neg n).data := by
  simp [oneDecimal, tenths, String.data_append]

theorem numberToString_whole :
    ∀ n < 200, numberToString (lit n 1) = Nat.repr n := by
  decide!

theorem numberToString_fraction :
    numberToString (lit 1205 10) = "120.5" ∧ numberToString (lit 12345678 10000) = "1234.5678" ∧
    numberToString (lit 1 10) = "0.1" ∧ numberToString (lit (10 ^ 21) 1) = "1e+21" ∧
    numberToString (JSNumber.neg (lit 805 10)) = "-80.5" := by
  decide!

theorem scaleFrac_value (m : Nat) (e : Int) :
    0 < (scaleFrac m 1 (-e)).2 ∧
    ((scaleFrac m 1 (-e)).1 : ℚ) = (m : ℚ) * 2 ^ e * ((scaleFrac m 1 (-e)).2 : ℚ) := by
  unfold scaleFrac
  by_cases h : 0 ≤ -e
  · have he : e = -(((-e).toNat : Nat) : Int) := by
      rw [Int.toNat_of_nonneg h]; omega
    simp only [h, if_true, one_mul]
    refine ⟨Nat.pow_pos (by decide), ?_⟩
    generalize (-e).toNat = k at he
    subst he
    push_cast
    rw [zpow_neg, zpow_natCast, mul_assoc, inv_mul_cancel₀ (by positivity), mul_one]
  · have he : e = ((e.toNat : Nat) : Int) := by
      rw [Int.toNat_of_nonneg (by omega)]
    simp only [h, if_false, neg_neg]
    refine ⟨Nat.one_pos, ?_⟩
    generalize e.toNat = k at he
    subst he
    push_cast
    rw [zpow_natCast, mul_one]

/-- For a finite double below `10^21` in magnitude, `toFixed(1)` is the sign followed by the
one-decimal numeral of the integer `n` of tenths nearest to the magnitude, ties going up. -/
theorem toFixed_one_nearest (neg : Bool) (m : Nat) (e : Int)
    (hlt : (m : ℚ) * 2 ^ e < 10 ^ 21) :
    ∃ n : Nat,
      toFixed (.fin neg m e) 1 = oneDecimal (neg && m != 0) n ∧
      (m : ℚ) * 2 ^ e - 1 / 20 < (n : ℚ) / 10 ∧ (n : ℚ) / 10 ≤ (m : ℚ) * 2 ^ e + 1 / 20 := by
  obtain ⟨hD, hval⟩ := scaleFrac_value m e
  generalize hN : (scaleFrac m 1 (-e)).1 = N at hval
  generalize hDd : (scaleFrac m 1 (-e)).2 = D at hval hD
  have hDq : (0 : ℚ) < (D : ℚ) := by exact_mod_cast hD
  have hguard : ¬ (10 ^ 21 * D ≤ N) := by
    intro hle
    have hq : (10 : ℚ) ^ 21 * (D : ℚ) ≤ (N : ℚ) := by exact_mod_cast hle
    rw [hval] at hq
    have := le_of_mul_le_mul_right hq hDq
    linarith
  refine ⟨(2 * N * 10 ^ 1 + D) / (2 * D), ?_, ?_, ?_⟩
  · simp only [toFixed, oneDecimal, hN, hDd, if_neg hguard, Nat.one_ne_zero, if_false,
      (pad_take ((2 * N * 10 ^ 1 + D) / (2 * D))).1,
      (pad_take ((2 * N * 10 ^ 1 + D) / (2 * D))).2, tenths, String.append_assoc]
  · have h2 : 2 * N * 10 ^ 1 + D < 2 * D * ((2 * N * 10 ^ 1 + D) / (2 * D) + 1) :=
      Nat.lt_mul_div_succ _ (by omega)
    generalize (2 * N * 10 ^ 1 + D) / (2 * D) = n at h2
    have h2q : 2 * (N : ℚ) * 10 ^ 1 + (D : ℚ) < 2 * (D : ℚ) * ((n : ℚ) + 1) := by
      exact_mod_cast h2
    rw [hval] at h2q
    have h3 : (D : ℚ) * (20 * ((m : ℚ) * 2 ^ e) + 1) < (D : ℚ) * (2 * ((n : ℚ) + 1)) := by
      nlinarith
    have h4 := lt_of_mul_lt_mul_left h3 hDq.le
    linarith
  · have h1 : 2 * D * ((2 * N * 10 ^ 1 + D) / (2 * D)) ≤ 2 * N * 10 ^ 1 + D :=
      Nat.mul_div_le _ _
    generalize (2 * N * 10 ^ 1 + D) / (2 * D) = n at h1
    have h1q : 2 * (D : ℚ) * (n : ℚ) ≤ 2 * (N : ℚ) * 10 ^ 1 + (D : ℚ) := by
      exact_mod_cast h1
    rw [hval] at h1q
    have h3 : (D : ℚ) * (2 * (n : ℚ)) ≤ (D : ℚ) * (20 * ((m : ℚ) * 2 ^ e) + 1) := by
      nlinarith
    have h4 := le_of_mul_le_mul_left h3 hDq
    linarith

end JSNumber

/-! ## General lemmas -/

theorem coverSlide_eq (axiosGet : String → Except String (List Byte)) (data : Payload) :
    coverSlide axiosGet data = .ok (coverResult axiosGet data) := by
  unfold coverSlide coverResult fetchImageAsDataUri
  by_cases h : truthyString data.logoUrl = true
  · cases hg : axiosGet (data.logoUrl.getD "") <;>
      simp [h, hg, tryCatch, tryCatchThe, MonadExceptOf.tryCatch, Except.tryCatch, bind,
        Except.bind, pure, Except.pure]
  · simp [h, pure, Except.pure]

theorem buildPptxBuffer_eq (axiosGet : String → Except String (List Byte)) (data : Payload) :
    buildPptxBuffer axiosGet data = .ok (composed axiosGet data) := by
  unfold buildPptxBuffer composed contentSlides
  rw [coverSlide_eq]
  by_cases hc : truthyLength data.competitors = true <;>
    by_cases hs : truthyLength data.sources = true <;>
    simp [hc, hs, bind, Except.bind, pure, Except.pure, Pptx.addSlide, Pptx.defineSlideMaster]

theorem cover_not_titled (axiosGet : String → Except String (List Byte)) (data : Payload)
    (t : String) : ¬ (coverResult axiosGet data).hasTitle t := by
  unfold coverResult Slide.hasTitle
  split
  · split <;>
      simp [coverTexts, Slide.addText, Slide.addImage, newSlide, contentTitle, HEADER_TITLE]
  · simp [coverTexts, Slide.addText, Slide.addImage, newSlide, contentTitle, HEADER_TITLE]

theorem slideTitled_ratings (axiosGet : String → Except String (List Byte)) (data : Payload) :
    (composed axiosGet data).slideTitled "Analyst Ratings & Targets"
      = some (ratingsSlide data) := by
  simp [composed, Pptx.slideTitled, List.find?_cons, cover_not_titled, contentSlides]
  simp [Slide.hasTitle, snapshotSlide, ratingsSlide, addContentTitle, Slide.addText,
    Slide.addTable, newSlide, contentTitle]

theorem foldl_push {α β : Type} (f : α → β) (xs : List α) (acc : List β) :
    xs.foldl (fun rows r => rows ++ [f r]) acc = acc ++ xs.map f := by
  induction xs generalizing acc with
  | nil => simp
  | cons x xs ih => simp [ih]

theorem ratingRows_eq (data : Payload) :
    ratingRows data = ratingsHeader :: data.ratings.map (fun r =>
      [.str r.source, .str r.rating, .str ("$" ++ JSNumber.numberToString r.target),
        .str (upDown data.priceToday r)]) := by
  unfold ratingRows
  rw [foldl_push (fun r : Rating =>
      [Cell.str r.source, Cell.str r.rating, Cell.str ("$" ++ JSNumber.numberToString r.target),
        Cell.str (upDown data.priceToday r)])]
  rfl

theorem ratingsSlide_tableRows (data : Payload) :
    (ratingsSlide data).tableRows = ratingRows data := by
  simp [ratingsSlide, Slide.tableRows, addContentTitle, Slide.addText, Slide.addTable, newSlide]

theorem truthyLength_eq {α : Type} (o : Option (List α)) :
    (if truthyLength o = true then 1 else 0) = countIfNonEmpty o := by
  cases o with
  | none => rfl
  | some xs => cases xs <;> simp [truthyLength, countIfNonEmpty]

theorem contentSlides_length (data : Payload) :
    (contentSlides data).length
      = 5 + countIfNonEmpty data.competitors + countIfNonEmpty data.sources := by
  rw [← truthyLength_eq, ← truthyLength_eq]
  unfold contentSlides
  by_cases hc : truthyLength data.competitors = true <;>
    by_cases hs : truthyLength data.sources = true <;> simp [hc, hs]

/-! ## C1: slide count -/

/-- C1 as stated fails: the payload `bare`, with neither competitors nor sources, yields six
slides, not the `1 + 4` the claim counts. -/
theorem six_slides_for_bare :
    bare.accepted = true ∧
    ∃ p, buildPptxBuffer offline bare = .ok p ∧
      p.slides.length = 6 ∧
      ¬ (p.slides.length
          = 1 + 4 + countIfNonEmpty bare.competitors + countIfNonEmpty bare.sources) := by
  exact ⟨rfl, composed offline bare, buildPptxBuffer_eq _ _, rfl, by decide⟩

/-- C1 (amended): `buildPptxBuffer` succeeds with between 5 and 8 slides (at least 6), namely
1 cover + 5 always-present content slides + 1 iff `competitors` is non-empty + 1 iff
`sources` is non-empty. -/
theorem slide_count (axiosGet : String → Except String (List Byte)) (data : Payload) :
    ∃ p, buildPptxBuffer axiosGet data = .ok p ∧
      p.slides.length
        = 1 + 5 + countIfNonEmpty data.competitors + countIfNonEmpty data.sources ∧
      6 ≤ p.slides.length ∧ 5 ≤ p.slides.length ∧ p.slides.length ≤ 8 := by
  refine ⟨composed axiosGet data, buildPptxBuffer_eq _ _, ?_⟩
  have hc : countIfNonEmpty data.competitors ≤ 1 := by
    unfold countIfNonEmpty; split <;> simp
  have hs : countIfNonEmpty data.sources ≤ 1 := by
    unfold countIfNonEmpty; split <;> simp
  simp only [composed, List.length_cons, contentSlides_length]
  omega

/-! ## C2, C3, C4, C7: the Analyst Ratings table -/

theorem ratingRows_cell (data : Payload) (i j : Nat) (hi : i < data.ratings.length) :
    cellAt (ratingRows data) (i + 1) j
      = ([Cell.str (data.ratings[i]).source, .str (data.ratings[i]).rating,
          .str ("$" ++ JSNumber.numberToString (data.ratings[i]).target),
          .str (upDown data.priceToday (data.ratings[i]))] : List Cell)[j]? := by
  simp [ratingRows_eq, cellAt, List.getElem?_map, List.getElem?_eq_getElem hi]

/-- C2 as stated fails: in the accepted payload `extremes` the price is 4, present and not
zero.  For the target `1e308` the cell is `Infinity%` and for the target `4e21` it is
`1e+23%`; neither is a numeral with one decimal place.  For the target `4.67` the cell is
`16.8%`, although the exact value of the formula on these two doubles lies strictly between
16.65 and 16.75, whose nearest tenth is 16.7. -/
theorem upside_cell_not_one_decimal :
    extremes.accepted = true ∧ extremes.priceToday = some (.lit 4 1) ∧
    (JSNumber.lit 4 1).truthy = true ∧
    ∃ deck s, buildPptxBuffer offline extremes = .ok deck ∧
      deck.slideTitled "Analyst Ratings & Targets" = some s ∧
      cellAt s.tableRows 1 3 = some (.str "Infinity%") ∧
      (¬ ∃ neg n, "Infinity%" = JSNumber.oneDecimal neg n ++ "%") ∧
      cellAt s.tableRows 2 3 = some (.str "1e+23%") ∧
      (¬ ∃ neg n, "1e+23%" = JSNumber.oneDecimal neg n ++ "%") ∧
      cellAt s.tableRows 3 3 = some (.str "16.8%") ∧
      1665 / 100 < ((JSNumber.lit 467 100).exact - (JSNumber.lit 4 1).exact)
        / (JSNumber.lit 4 1).exact * 100 ∧
      ((JSNumber.lit 467 100).exact - (JSNumber.lit 4 1).exact)
        / (JSNumber.lit 4 1).exact * 100 < 1675 / 100 := by
  have hdot : ∀ (c : String), '.' ∉ c.data →
      ¬ ∃ neg n, c = JSNumber.oneDecimal neg n ++ "%" := by
    rintro c hc ⟨neg, n, h⟩
    apply hc
    rw [h, String.data_append]
    exact List.mem_append_left _ (JSNumber.dot_mem_oneDecimal neg n)
  have h467 : JSNumber.lit 467 100 = .fin false 5257952564955054 (-50) := by decide!
  have h4 : JSNumber.lit 4 1 = .fin false 4503599627370496 (-50) := by decide!
  refine ⟨by decide!, rfl, by decide!, composed offline extremes, ratingsSlide extremes,
    buildPptxBuffer_eq _ _, slideTitled_ratings _ _, ?_, hdot _ (by decide), ?_,
    hdot _ (by decide), ?_, ?_, ?_⟩
  · rw [ratingsSlide_tableRows]; decide!
  · rw [ratingsSlide_tableRows]; decide!
  · rw [ratingsSlide_tableRows]; decide!
  · rw [h467, h4]; simp only [JSNumber.exact]; norm_num
  · rw [h467, h4]; simp only [JSNumber.exact]; norm_num

/-- C2 (amended): with `priceToday` present, the Analyst Ratings slide is produced and the
Upside/Downside cell of every rating row is `toFixed(1)` of the double computed as
`((target - priceToday) / priceToday) * 100`, suffixed with `%`; whenever that double is
finite and below `10^21` in magnitude, the cell is the numeral with one decimal place of the
number of tenths nearest to the double, ties going away from zero; a price of 100 with a
target of 120 gives `20.0%`, with a target of 80 it gives `-20.0%`. -/
theorem upside_cell_formula (axiosGet : String → Except String (List Byte)) (data : Payload)
    (p : JSNumber) (hp : data.priceToday = some p) :
    ∃ deck s, buildPptxBuffer axiosGet data = .ok deck ∧
      deck.slideTitled "Analyst Ratings & Targets" = some s ∧
      ∀ i (hi : i < data.ratings.length),
        cellAt s.tableRows (i + 1) 3
            = some (.str (JSNumber.toFixed
                ((((data.ratings[i]).target - p) / p) * .lit 100 1) 1 ++ "%")) ∧
        (∀ neg m e, (((data.ratings[i]).target - p) / p) * .lit 100 1 = .fin neg m e →
          (m : ℚ) * 2 ^ e < 10 ^ 21 →
          ∃ n : Nat,
            cellAt s.tableRows (i + 1) 3
              = some (.str (JSNumber.oneDecimal (neg && m != 0) n ++ "%")) ∧
            (m : ℚ) * 2 ^ e - 1 / 20 < (n : ℚ) / 10 ∧
            (n : ℚ) / 10 ≤ (m : ℚ) * 2 ^ e + 1 / 20) ∧
        (p = .lit 100 1 → (data.ratings[i]).target = .lit 120 1 →
          cellAt s.tableRows (i + 1) 3 = some (.str "20.0%")) ∧
        (p = .lit 100 1 → (data.ratings[i]).target = .lit 80 1 →
          cellAt s.tableRows (i + 1) 3 = some (.str "-20.0%")) := by
  refine ⟨composed axiosGet data, ratingsSlide data, buildPptxBuffer_eq _ _,
    slideTitled_ratings _ _, ?_⟩
  intro i hi
  rw [ratingsSlide_tableRows, ratingRows_cell data i 3 hi]
  refine ⟨by simp [upDown, hp], ?_, ?_, ?_⟩
  · intro neg m e hx hlt
    obtain ⟨n, hn, hlo, hhi⟩ := JSNumber.toFixed_one_nearest neg m e hlt
    exact ⟨n, by simp [upDown, hp, hx, hn], hlo, hhi⟩
  · intro h100 ht
    have : JSNumber.toFixed (((JSNumber.lit 120 1 - JSNumber.lit 100 1) / JSNumber.lit 100 1)
        * JSNumber.lit 100 1) 1 = "20.0" := by decide!
    simp [upDown, hp, h100, ht, this]
  · intro h100 ht
    have : JSNumber.toFixed (((JSNumber.lit 80 1 - JSNumber.lit 100 1) / JSNumber.lit 100 1)
        * JSNumber.lit 100 1) 1 = "-20.0" := by decide!
    simp [upDown, hp, h100, ht, this]

/-- Witness of C2 (amended) on the payload `acme`: price 100, targets 120 and 80.  The
double of the first row is 20, finite and below `10^21`, and the cell is a numeral with one
decimal place within a twentieth of it. -/
theorem upside_cell_formula_witness :
    acme.priceToday = some (.lit 100 1) ∧
    acme.ratings.map (fun r => r.target) = [.lit 120 1, .lit 80 1] ∧
    ∃ deck s, buildPptxBuffer online acme = .ok deck ∧
      deck.slideTitled "Analyst Ratings & Targets" = some s ∧
      cellAt s.tableRows 1 3 = some (.str "20.0%") ∧
      cellAt s.tableRows 2 3 = some (.str "-20.0%") ∧
      ∃ n : Nat, cellAt s.tableRows 1 3 = some (.str (JSNumber.oneDecimal false n ++ "%")) ∧
        (20 : ℚ) - 1 / 20 < (n : ℚ) / 10 ∧ (n : ℚ) / 10 ≤ 20 + 1 / 20 := by
  refine ⟨rfl, rfl, ?_⟩
  obtain ⟨deck, s, hb, ht, h⟩ := upside_cell_formula online acme (.lit 100 1) rfl
  have hx : (((acme.ratings[0]).target - JSNumber.lit 100 1) / JSNumber.lit 100 1)
      * JSNumber.lit 100 1 = .fin false 5629499534213120 (-48) := by decide!
  have hlt : ((5629499534213120 : Nat) : ℚ) * 2 ^ (-48 : Int) < 10 ^ 21 := by norm_num
  obtain ⟨n, hn, hlo, hhi⟩ := (h 0 (by decide)).2.1 false 5629499534213120 (-48) hx hlt
  have hval : ((5629499534213120 : Nat) : ℚ) * 2 ^ (-48 : Int) = 20 := by norm_num
  rw [hval] at hlo hhi
  exact ⟨deck, s, hb, ht, (h 0 (by decide)).2.2.1 rfl rfl, (h 1 (by decide)).2.2.2 rfl rfl,
    n, hn, hlo, hhi⟩

/-- C3: with `priceToday` absent, the Upside/Downside cell of every rating row is the
placeholder `—`. -/
theorem upside_cell_placeholder (axiosGet : String → Except String (List Byte))
    (data : Payload) (hp : data.priceToday = none) :
    ∃ deck s, buildPptxBuffer axiosGet data = .ok deck ∧
      deck.slideTitled "Analyst Ratings & Targets" = some s ∧
      ∀ i, i < data.ratings.length → cellAt s.tableRows (i + 1) 3 = some (.str "—") := by
  refine ⟨composed axiosGet data, ratingsSlide data, buildPptxBuffer_eq _ _,
    slideTitled_ratings _ _, ?_⟩
  intro i hi
  rw [ratingsSlide_tableRows, ratingRows_cell data i 3 hi]
  simp [upDown, hp]

/-- Witness of C3 on the payload `unpriced`. -/
theorem upside_cell_placeholder_witness :
    unpriced.priceToday = none ∧ unpriced.ratings.length = 2 ∧
    ∃ deck s, buildPptxBuffer offline unpriced = .ok deck ∧
      deck.slideTitled "Analyst Ratings & Targets" = some s ∧
      ∀ i, i < unpriced.ratings.length → cellAt s.tableRows (i + 1) 3 = some (.str "—") :=
  ⟨rfl, rfl, upside_cell_placeholder offline unpriced rfl⟩

/-- C4 fails on the code: the accepted payload `zeroPrice` has `priceToday = 0`; the cell of
its first row (target 0) is `NaN%` and the cell of its second row (target 10) is
`Infinity%`. -/
theorem zero_price_cells :
    zeroPrice.accepted = true ∧
    ∃ deck s, buildPptxBuffer offline zeroPrice = .ok deck ∧
      deck.slideTitled "Analyst Ratings & Targets" = some s ∧
      cellAt s.tableRows 1 3 = some (.str "NaN%") ∧
      cellAt s.tableRows 2 3 = some (.str "Infinity%") := by
  refine ⟨by decide!, composed offline zeroPrice, ratingsSlide zeroPrice,
    buildPptxBuffer_eq _ _, slideTitled_ratings _ _, ?_⟩
  rw [ratingsSlide_tableRows]
  decide!

/-- C7: the Analyst Ratings slide is produced; its table is the header row followed by one
row of four cells per entry of `ratings`, in order, whose first three cells are the source,
the rating and `$` followed by the target as Number::toString writes it: a whole target
below 200 as its decimal numeral (120 as `$120`), 120.5 as `$120.5`; with no ratings the
table is the header alone. -/
theorem ratings_table (axiosGet : String → Except String (List Byte)) (data : Payload) :
    ∃ deck s, buildPptxBuffer axiosGet data = .ok deck ∧
      deck.slideTitled "Analyst Ratings & Targets" = some s ∧
      s.objects
        = [contentTitle "Analyst Ratings & Targets", .table s.tableRows ratingsTableProps] ∧
      s.tableRows.head? = some ratingsHeader ∧
      s.tableRows.tail.map (fun row => row.take 3)
        = data.ratings.map (fun r =>
            [.str r.source, .str r.rating, .str ("$" ++ JSNumber.numberToString r.target)]) ∧
      (∀ row ∈ s.tableRows, row.length = 4) ∧
      (data.ratings = [] → s.tableRows = [ratingsHeader]) ∧
      (∀ i (hi : i < data.ratings.length),
        (∀ n : Nat, n < 200 → (data.ratings[i]).target = .lit n 1 →
          cellAt s.tableRows (i + 1) 2 = some (.str ("$" ++ Nat.repr n))) ∧
        ((data.ratings[i]).target = .lit 120 1 →
          cellAt s.tableRows (i + 1) 2 = some (.str "$120")) ∧
        ((data.ratings[i]).target = .lit 1205 10 →
          cellAt s.tableRows (i + 1) 2 = some (.str "$120.5"))) := by
  refine ⟨composed axiosGet data, ratingsSlide data, buildPptxBuffer_eq _ _,
    slideTitled_ratings _ _, ?_, ?_⟩
  · rw [ratingsSlide_tableRows]
    simp only [ratingsSlide, addContentTitle, Slide.addText, Slide.addTable, newSlide,
      contentTitle, List.nil_append, List.cons_append]
  · rw [ratingsSlide_tableRows]
    refine ⟨?_, ?_, ?_, ?_, ?_⟩
    · rw [ratingRows_eq]; rfl
    · rw [ratingRows_eq]; simp [Function.comp_def]
    · rw [ratingRows_eq]
      intro row hrow
      simp only [List.mem_cons, List.mem_map] at hrow
      rcases hrow with h | ⟨r, _, h⟩
      · rw [h]; rfl
      · rw [← h]; rfl
    · intro h
      rw [ratingRows_eq]
      simp [h]
    · intro i hi
      rw [ratingRows_cell data i 2 hi]
      refine ⟨?_, ?_, ?_⟩
      · intro n hn ht
        simp [ht, JSNumber.numberToString_whole n hn]
      · intro ht
        have h120 := JSNumber.numberToString_whole 120 (by decide)
        have hr : Nat.repr 120 = "120" := by decide
        simp [ht, h120, hr]
      · intro ht
        simp [ht, JSNumber.numberToString_fraction.1]

/-- Witness of C7 on the payload `acme`: the whole table of its two ratings. -/
theorem ratings_table_witness :
    acme.ratings.map (fun r => r.target) = [.lit 120 1, .lit 80 1] ∧
    ∃ deck s, buildPptxBuffer online acme = .ok deck ∧
      deck.slideTitled "Analyst Ratings & Targets" = some s ∧
      s.tableRows.head? = some ratingsHeader ∧
      s.tableRows.tail.map (fun row => row.take 3)
        = [[.str "Alpha", .str "Buy", .str "$120"], [.str "Beta", .str "Sell", .str "$80"]] := by
  refine ⟨rfl, ?_⟩
  obtain ⟨deck, s, hb, ht, _, hh, hrows, _, _, _⟩ := ratings_table online acme
  refine ⟨deck, s, hb, ht, hh, ?_⟩
  rw [hrows]
  decide!

/-! ## C5, C6: the Peer Comparison slide -/

theorem slideTitled_peer (axiosGet : String → Except String (List Byte)) (data : Payload) :
    (composed axiosGet data).slideTitled "Peer Comparison"
      = if truthyLength data.competitors = true
          then some (peerSlide (data.competitors.getD [])) else none := by
  simp only [composed, Pptx.slideTitled, List.find?_cons, cover_not_titled, contentSlides,
    decide_False]
  by_cases hc : truthyLength data.competitors = true <;>
    by_cases hs : truthyLength data.sources = true <;>
    simp [hc, hs, Slide.hasTitle, snapshotSlide, ratingsSlide, takeawaysSlide, peerSlide,
      risksSlide, commentarySlide, sourcesSlide, addContentTitle, Slide.addText,
      Slide.addTable, newSlide, contentTitle]

theorem peerSlide_tableRows (cs : List Competitor) :
    (peerSlide cs).tableRows = peerHeader :: cs.map peerRow := by
  simp [peerSlide, Slide.tableRows, addContentTitle, Slide.addText, Slide.addTable, newSlide,
    peerHeader]

theorem peer_cell (cs : List Competitor) (i j : Nat) (hi : i < cs.length) :
    cellAt (peerHeader :: cs.map peerRow) (i + 1) j = (peerRow cs[i])[j]? := by
  simp [cellAt, List.getElem?_map, List.getElem?_eq_getElem hi]

/-- C5 as stated fails: in the accepted payload `oddCaps` the first peer has the market cap
0, which is present, and its Mkt Cap cell is the placeholder `—`, not `0.0`, the rendering of
`0 / 1000` with one decimal; the second peer has the market cap `1e24` and its cell is
`1e+21`, which is not a numeral with one decimal place. -/
theorem mktCap_zero_or_huge :
    oddCaps.accepted = true ∧
    oddCaps.competitors.map (fun cs => cs.map (fun c => c.mktCap))
      = some [some (.lit 0 1), some (.lit (10 ^ 24) 1)] ∧
    JSNumber.toFixed (JSNumber.lit 0 1 / .lit 1000 1) 1 = "0.0" ∧
    ∃ deck s, buildPptxBuffer offline oddCaps = .ok deck ∧
      deck.slideTitled "Peer Comparison" = some s ∧
      cellAt s.tableRows 1 1 = some (.str "—") ∧
      cellAt s.tableRows 2 1 = some (.str "1e+21") ∧
      ¬ ∃ neg n, "1e+21" = JSNumber.oneDecimal neg n := by
  refine ⟨by decide!, rfl, by decide!, composed offline oddCaps, _, buildPptxBuffer_eq _ _,
    slideTitled_peer _ _, by decide!, by decide!, ?_⟩
  rintro ⟨neg, n, h⟩
  have hdot : '.' ∈ ("1e+21" : String).data := by
    rw [h]; exact JSNumber.dot_mem_oneDecimal neg n
  revert hdot
  decide

/-- C5 (amended): for a non-empty `competitors` the Peer Comparison slide is produced and,
whenever `mktCap` is present and truthy (neither zero nor NaN), the Mkt Cap cell of the row
is `toFixed(1)` of the double `mktCap / 1000`, which for a finite quotient below `10^21` in
magnitude is the numeral with one decimal place of the number of tenths nearest to the
quotient (2500 renders as `2.5`); the cell is the placeholder `—` when `mktCap` is absent or
falsy. -/
theorem peer_mktCap_cell (axiosGet : String → Except String (List Byte)) (data : Payload)
    (cs : List Competitor) (hcs : data.competitors = some cs) (hne : cs ≠ []) :
    ∃ deck s, buildPptxBuffer axiosGet data = .ok deck ∧
      deck.slideTitled "Peer Comparison" = some s ∧
      ∀ i (hi : i < cs.length),
        (∀ m, (cs[i]).mktCap = some m → m.truthy = true →
          cellAt s.tableRows (i + 1) 1
            = some (.str (JSNumber.toFixed (m / .lit 1000 1) 1))) ∧
        (∀ m neg k e, (cs[i]).mktCap = some m → m.truthy = true →
          m / .lit 1000 1 = .fin neg k e → (k : ℚ) * 2 ^ e < 10 ^ 21 →
          ∃ n : Nat,
            cellAt s.tableRows (i + 1) 1
              = some (.str (JSNumber.oneDecimal (neg && k != 0) n)) ∧
            (k : ℚ) * 2 ^ e - 1 / 20 < (n : ℚ) / 10 ∧
            (n : ℚ) / 10 ≤ (k : ℚ) * 2 ^ e + 1 / 20) ∧
        ((cs[i]).mktCap = some (.lit 2500 1) →
          cellAt s.tableRows (i + 1) 1 = some (.str "2.5")) ∧
        (∀ m, (cs[i]).mktCap = some m → m.truthy = false →
          cellAt s.tableRows (i + 1) 1 = some (.str "—")) ∧
        ((cs[i]).mktCap = none → cellAt s.tableRows (i + 1) 1 = some (.str "—")) := by
  have ht : truthyLength data.competitors = true := by
    cases cs with
    | nil => exact absurd rfl hne
    | cons c cs => simp [hcs, truthyLength]
  refine ⟨composed axiosGet data, peerSlide cs, buildPptxBuffer_eq _ _, ?_, ?_⟩
  · rw [slideTitled_peer, if_pos ht, hcs]; rfl
  · intro i hi
    rw [peerSlide_tableRows, peer_cell cs i 1 hi]
    refine ⟨?_, ?_, ?_, ?_, ?_⟩
    · intro m hm htr
      simp [peerRow, hm, htr]
    · intro m neg k e hm htr hx hlt
      obtain ⟨n, hn, hlo, hhi⟩ := JSNumber.toFixed_one_nearest neg k e hlt
      exact ⟨n, by simp [peerRow, hm, htr, hx, hn], hlo, hhi⟩
    · intro hm
      have h1 : (JSNumber.lit 2500 1).truthy = true := by decide!
      have h2 : JSNumber.toFixed (JSNumber.lit 2500 1 / .lit 1000 1) 1 = "2.5" := by decide!
      simp [peerRow, hm, h1, h2]
    · intro m hm htr
      simp [peerRow, hm, htr]
    · intro hm
      simp [peerRow, hm]

/-- Witness of C5 (amended) on the payload `acme`, whose one peer has the market cap 2500. -/
theorem peer_mktCap_cell_witness :
    acme.competitors.map (fun cs => cs.map (fun c => c.mktCap))
      = some [some (.lit 2500 1)] ∧
    ∃ deck s, buildPptxBuffer online acme = .ok deck ∧
      deck.slideTitled "Peer Comparison" = some s ∧
      cellAt s.tableRows 1 1 = some (.str "2.5") := by
  refine ⟨rfl, ?_⟩
  obtain ⟨deck, s, hb, ht, h⟩ := peer_mktCap_cell online acme _ rfl (by simp)
  exact ⟨deck, s, hb, ht, (h 0 (by simp)).2.2.1 rfl⟩

/-- C6: the deck composed with `competitors` omitted equals the deck composed with
`competitors` set to the empty list, and it has no Peer Comparison slide. -/
theorem competitors_omitted_or_empty (axiosGet : String → Except String (List Byte))
    (data : Payload) :
    buildPptxBuffer axiosGet { data with competitors := none }
      = buildPptxBuffer axiosGet { data with competitors := some [] } ∧
    ∃ deck, buildPptxBuffer axiosGet { data with competitors := none } = .ok deck ∧
      deck.slideTitled "Peer Comparison" = none ∧
      ∀ s ∈ deck.slides, ¬ s.hasTitle "Peer Comparison" := by
  have hnone : (composed axiosGet { data with competitors := none }).slideTitled
      "Peer Comparison" = none := by
    rw [slideTitled_peer]; rfl
  refine ⟨?_, composed axiosGet { data with competitors := none }, buildPptxBuffer_eq _ _,
    hnone, ?_⟩
  · rw [buildPptxBuffer_eq, buildPptxBuffer_eq]
    rfl
  · intro s hs
    have := List.find?_eq_none.mp hnone s hs
    simpa using this

/-! ## C8: a failed logo fetch -/

theorem coverTexts_texts (data : Payload) :
    (coverTexts data).objects.map SlideObject.text?
      = [some (data.companyName ++ " (" ++ data.ticker ++ ")"),
         some ("As of " ++ data.asOfDate)] := by
  simp [coverTexts, Slide.addText, newSlide, SlideObject.text?]

/-- C8: when the fetch of the logo fails, `buildPptxBuffer` still succeeds; the cover slide
is first, carries exactly its title and subtitle text blocks and no image block; every other
slide, the masters and the layout are those of the deck built with any other fetch result,
in particular with a successful fetch. -/
theorem failed_logo_fetch (axiosGet : String → Except String (List Byte)) (data : Payload)
    (url e : String) (hurl : data.logoUrl = some url) (hfail : axiosGet url = .error e) :
    ∃ deck cover rest, buildPptxBuffer axiosGet data = .ok deck ∧
      deck.slides = cover :: rest ∧
      cover.masterName = "TITLE_MASTER" ∧
      cover.objects.map SlideObject.text?
        = [some (data.companyName ++ " (" ++ data.ticker ++ ")"),
           some ("As of " ++ data.asOfDate)] ∧
      (∀ o ∈ cover.objects, o.isImage = false) ∧
      ∀ (axiosGet' : String → Except String (List Byte)),
        ∃ deck', buildPptxBuffer axiosGet' data = .ok deck' ∧
          deck'.slides.tail = rest ∧ deck'.masters = deck.masters ∧
          deck'.layout = deck.layout := by
  have hcover : coverResult axiosGet data = coverTexts data := by
    unfold coverResult
    split
    · simp [hurl, hfail]
    · rfl
  refine ⟨composed axiosGet data, coverTexts data, contentSlides data,
    buildPptxBuffer_eq _ _, ?_, rfl, coverTexts_texts data, ?_, ?_⟩
  · simp [composed, hcover]
  · simp [coverTexts, Slide.addText, newSlide, SlideObject.isImage]
  · intro axiosGet'
    exact ⟨composed axiosGet' data, buildPptxBuffer_eq _ _, rfl, rfl, rfl⟩

/-- Witness of C8 on the payload `acme` with the failing fetch `offline`; with the fetch
`online` the cover has a third block, the image. -/
theorem failed_logo_fetch_witness :
    acme.logoUrl = some "https://example.com/logo.png" ∧
    offline "https://example.com/logo.png" = .error "ECONNREFUSED" ∧
    (∃ deck cover rest, buildPptxBuffer offline acme = .ok deck ∧
      deck.slides = cover :: rest ∧
      cover.masterName = "TITLE_MASTER" ∧
      cover.objects.map SlideObject.text?
        = [some (acme.companyName ++ " (" ++ acme.ticker ++ ")"),
           some ("As of " ++ acme.asOfDate)] ∧
      (∀ o ∈ cover.objects, o.isImage = false) ∧
      ∀ (axiosGet' : String → Except String (List Byte)),
        ∃ deck', buildPptxBuffer axiosGet' acme = .ok deck' ∧
          deck'.slides.tail = rest ∧ deck'.masters = deck.masters ∧
          deck'.layout = deck.layout) ∧
    (coverResult online acme).objects.map SlideObject.isImage = [false, false, true] :=
  ⟨rfl, rfl, failed_logo_fetch offline acme _ _ rfl rfl, by decide!⟩

/-! ## C9: theme -/

/-- C9 as stated fails: on the Key Takeaways slide of the payload `bare` the heading
`Positives` has the colour `157347` and the font size 18, neither of which the theme
declares. -/
theorem heading_outside_theme :
    bare.accepted = true ∧
    ∃ deck s o, buildPptxBuffer offline bare = .ok deck ∧
      deck.slideTitled "Key Takeaways" = some s ∧
      s.objects[1]? = some (.text "Positives" o) ∧
      o.color = "157347" ∧ o.fontSize = 18 ∧
      usesThemeOnly (.text "Positives" o) = false := by
  refine ⟨rfl, composed offline bare, takeawaysSlide bare, _, buildPptxBuffer_eq _ _, ?_, rfl,
    rfl, rfl, by decide!⟩
  decide!

theorem coverResult_styled (axiosGet : String → Except String (List Byte)) (data : Payload) :
    ∀ o ∈ (coverResult axiosGet data).objects, styledAsComposed o = true := by
  unfold coverResult
  split
  · split <;>
    · simp only [coverTexts, Slide.addText, Slide.addImage, newSlide, List.nil_append,
        List.cons_append, List.mem_cons, List.mem_singleton, List.not_mem_nil, or_false]
      rintro o (rfl | rfl | rfl) <;> rfl
  · simp only [coverTexts, Slide.addText, Slide.addImage, newSlide, List.nil_append,
      List.cons_append, List.mem_cons, List.mem_singleton, List.not_mem_nil, or_false]
    rintro o (rfl | rfl) <;> rfl

theorem contentSlides_styled (data : Payload) :
    ∀ s ∈ contentSlides data, ∀ o ∈ s.objects, styledAsComposed o = true := by
  intro s hs
  simp only [contentSlides, List.mem_append, List.mem_cons, List.mem_singleton,
    List.not_mem_nil, or_false] at hs
  rcases hs with ((((rfl | rfl | rfl) | hp) | (rfl | rfl)) | hsrc)
  · simp only [snapshotSlide, addContentTitle, Slide.addText, newSlide, List.nil_append,
      List.cons_append, List.mem_cons, List.mem_singleton, List.not_mem_nil, or_false]
    rintro o (rfl | rfl) <;> rfl
  · simp only [ratingsSlide, addContentTitle, Slide.addText, Slide.addTable, newSlide,
      List.nil_append, List.cons_append, List.mem_cons, List.mem_singleton, List.not_mem_nil,
      or_false]
    rintro o (rfl | rfl) <;> rfl
  · simp only [takeawaysSlide, addContentTitle, Slide.addText, newSlide, List.nil_append,
      List.cons_append, List.mem_cons, List.mem_singleton, List.not_mem_nil, or_false]
    rintro o (rfl | rfl | rfl | rfl | rfl) <;> rfl
  · split at hp
    · rw [List.mem_singleton] at hp
      subst hp
      simp only [peerSlide, addContentTitle, Slide.addText, Slide.addTable, newSlide,
        List.nil_append, List.cons_append, List.mem_cons, List.mem_singleton,
        List.not_mem_nil, or_false]
      rintro o (rfl | rfl) <;> rfl
    · exact absurd hp (List.not_mem_nil _)
  · simp only [risksSlide, addContentTitle, Slide.addText, newSlide, List.nil_append,
      List.cons_append, List.mem_cons, List.mem_singleton, List.not_mem_nil, or_false]
    rintro o (rfl | rfl | rfl | rfl | rfl) <;> rfl
  · simp only [commentarySlide, addContentTitle, Slide.addText, newSlide, List.nil_append,
      List.cons_append, List.mem_cons, List.mem_singleton, List.not_mem_nil, or_false]
    rintro o (rfl | rfl | rfl | rfl) <;> rfl
  · split at hsrc
    · rw [List.mem_singleton] at hsrc
      subst hsrc
      simp only [sourcesSlide, addContentTitle, Slide.addText, newSlide, List.nil_append,
        List.cons_append, List.mem_cons, List.mem_singleton, List.not_mem_nil, or_false]
      rintro o (rfl | rfl) <;> rfl
    · exact absurd hsrc (List.not_mem_nil _)

/-- C9 (amended): every text block on every slide uses the font face Calibri and either a
declared theme colour with the font size of a declared text role, or one of the literal
styles of the source: size 60 in TEXT (cover title), size 22 in SUBT (cover subtitle), size
18 in `157347` or `B02A37` (Key Takeaways headings); every table uses the font size 14, the
header colour TEXT, the header fill `F3F4F6` and the border colour `D1D5DB`. -/
theorem styling_of_every_block (axiosGet : String → Except String (List Byte))
    (data : Payload) :
    ∃ deck, buildPptxBuffer axiosGet data = .ok deck ∧
      ∀ s ∈ deck.slides, ∀ o ∈ s.objects, styledAsComposed o = true := by
  refine ⟨composed axiosGet data, buildPptxBuffer_eq _ _, ?_⟩
  intro s hs
  simp only [composed, List.mem_cons] at hs
  rcases hs with rfl | hs
  · exact coverResult_styled axiosGet data
  · exact contentSlides_styled data s hs

/-! ## C10: the Risks & What to Watch slide -/

theorem slideTitled_risks (axiosGet : String → Except String (List Byte)) (data : Payload) :
    (composed axiosGet data).slideTitled "Risks & What to Watch" = some (risksSlide data) := by
  simp only [composed, Pptx.slideTitled, List.find?_cons, cover_not_titled, contentSlides,
    decide_False]
  by_cases hc : truthyLength data.competitors = true <;>
    by_cases hs : truthyLength data.sources = true <;>
    simp [hc, hs, Slide.hasTitle, snapshotSlide, ratingsSlide, takeawaysSlide, peerSlide,
      risksSlide, commentarySlide, sourcesSlide, addContentTitle, Slide.addText,
      Slide.addTable, newSlide, contentTitle]

theorem column_eq_bulletColumn (xs : Option (List String)) :
    join ((if truthyLength xs = true then xs.getD [] else ["(none provided)"]).map
      (fun r => "• " ++ r)) "\n" = bulletColumn xs := by
  cases xs with
  | none => rfl
  | some l =>
    cases l with
    | nil => rfl
    | cons x l => simp [truthyLength, bulletColumn, bulleted, join]

/-- C10: the Risks & What to Watch slide is produced; its blocks are the title, the heading
`Risks`, the risks column, the heading `What to Watch` and the watch column, and each column
is the bulleted list of its sequence when that is present and non-empty, and the single
bullet `• (none provided)` when it is absent or empty. -/
theorem risks_slide_columns (axiosGet : String → Except String (List Byte)) (data : Payload) :
    ∃ deck s, buildPptxBuffer axiosGet data = .ok deck ∧
      deck.slideTitled "Risks & What to Watch" = some s ∧
      s.objects.map SlideObject.text?
        = [some "Risks & What to Watch", some "Risks", some (bulletColumn data.risks),
           some "What to Watch", some (bulletColumn data.watch)] ∧
      (∀ x xs, data.risks = some (x :: xs) → bulletColumn data.risks = bulleted (x :: xs)) ∧
      (data.risks = none ∨ data.risks = some [] →
        bulletColumn data.risks = "• (none provided)") ∧
      (∀ x xs, data.watch = some (x :: xs) → bulletColumn data.watch = bulleted (x :: xs)) ∧
      (data.watch = none ∨ data.watch = some [] →
        bulletColumn data.watch = "• (none provided)") := by
  refine ⟨composed axiosGet data, risksSlide data, buildPptxBuffer_eq _ _,
    slideTitled_risks _ _, ?_, ?_, ?_, ?_, ?_⟩
  · simp only [risksSlide, column_eq_bulletColumn]
    simp [addContentTitle, Slide.addText, newSlide, SlideObject.text?]
  · intro x xs h; rw [h]; rfl
  · rintro (h | h) <;> rw [h] <;> rfl
  · intro x xs h; rw [h]; rfl
  · rintro (h | h) <;> rw [h] <;> rfl

end ResearchDeck
